import Mathlib

/-!
Shallow embedding of the authentication, rate-limiting, validation and
proxy logic of `secure_ocr_gateway.py`, together with proofs about the
behaviour each endpoint exhibits.

Modelling conventions:
* Wall-clock instants (`time.time()`) are integers; only differences of
  instants are ever inspected by the code, so this loses nothing relevant.
* `rate_limit_storage` (a Python dict from key to list of timestamps,
  where an absent key behaves as the empty list once initialised) is a
  total function `String → List ℤ`.
* The global `API_KEYS` dict is a `Registry` parameter; the concrete
  registry of the source file is also defined below.
* A request body parsed by `request.get_json()` is `none` when the body
  is absent or falsy (no JSON / empty dict), otherwise `some` of a record
  describing the fields the gateway inspects.
* The upstream OCR server is a parameter describing the outcome of the
  single forwarded HTTP call (timeout, other exception, or a reply).
* The loop `for _ in range(num_images): ....append(time.time())` reads
  the clock once per iteration; the model uses a single instant
  `loop_now` for the appended batch timestamps, which is irrelevant to
  every property proved here (only the count and window membership of
  those timestamps are ever used).
-/

namespace SecureOcrGateway

/-- A record of the `API_KEYS` configuration dict:
`{"user": ..., "tier": ..., "daily_limit": ...}`. -/
structure ApiKeyRecord where
  user : String
  tier : String
  daily_limit : ℕ
deriving DecidableEq, Repr

/-- The `API_KEYS` dict, as a lookup function. -/
abbrev Registry := String → Option ApiKeyRecord

/-- The `rate_limit_storage` dict: per key, the list of recorded
request timestamps (an absent key behaves as the empty list). -/
abbrev Storage := String → List ℤ

/-- The concrete `API_KEYS` table of `secure_ocr_gateway.py`. -/
def API_KEYS : Registry := fun k =>
  if k = "ios_app_key_123xyz" then some ⟨"ios_app", "pro", 1000⟩
  else if k = "test_key_456abc" then some ⟨"test_user", "free", 50⟩
  else none

/-- Result of the `require_api_key` decorator: either an early 401/403
return, or the wrapped handler runs with `request.api_key` and
`request.api_user` set. -/
inductive AuthResult where
  | missing
  | invalid
  | ok (api_key : String) (record : ApiKeyRecord)
deriving DecidableEq, Repr

/-- `require_api_key` (lines 55-81): `request.headers.get` yields `none`
when the header is absent; `if not api_key` also treats an empty header
value as missing; an unknown key is rejected as invalid. -/
def require_api_key (keys : Registry) (header : Option String) : AuthResult :=
  match header with
  | none => .missing
  | some api_key =>
    if api_key = "" then .missing
    else
      match keys api_key with
      | none => .invalid
      | some record => .ok api_key record

/-- The pruning comprehension of `check_rate_limit` (lines 98-101):
keep `req_time` exactly when `now - req_time < window`. -/
def pruneWindow (now window : ℤ) (ts : List ℤ) : List ℤ :=
  ts.filter (fun req_time => now - req_time < window)

/-- The triple returned by `check_rate_limit`: `(allowed, used, limit)`. -/
structure RateDecision where
  allowed : Bool
  used : ℕ
  limit : ℕ
deriving DecidableEq, Repr

/-- `check_rate_limit` (lines 84-110).  The `limit` parameter of the
source is dead (the effective limit is `daily_limit` looked up from
`API_KEYS`, defaulting to 50); it is kept for faithfulness.  Returns the
decision triple together with the updated `rate_limit_storage` (the dict
entry is overwritten with the pruned list, then `now` is appended when
admitted). -/
def check_rate_limit (keys : Registry) (api_key : String) (now : ℤ) (storage : Storage)
    (limit : ℕ := 100) (window : ℤ := 86400) : RateDecision × Storage :=
  let daily_limit := (Option.map ApiKeyRecord.daily_limit (keys api_key)).getD 50
  let pruned := pruneWindow now window (storage api_key)
  if daily_limit ≤ pruned.length then
    (⟨false, pruned.length, daily_limit⟩,
     fun k => if k = api_key then pruned else storage k)
  else
    (⟨true, (pruned ++ [now]).length, daily_limit⟩,
     fun k => if k = api_key then pruned ++ [now] else storage k)

/-- The `image` field of a single-OCR JSON body: absent, a string, or a
value of some non-string type. -/
inductive ImageField where
  | absent
  | str (s : String)
  | nonstring
deriving DecidableEq, Repr

/-- The JSON body of a single OCR request, restricted to the field the
gateway inspects. -/
structure OcrData where
  image : ImageField
deriving DecidableEq, Repr

/-- The `images` field of a batch JSON body: absent, a non-list value,
or a list of image references. -/
inductive ImagesField where
  | absent
  | nonlist
  | list (items : List String)
deriving DecidableEq, Repr

/-- The JSON body of a batch OCR request, restricted to the field the
gateway inspects. -/
structure BatchData where
  images : ImagesField
deriving DecidableEq, Repr

/-- Result of the validators: `(True, None)` or `(False, reason)`. -/
inductive ValidationResult where
  | ok
  | invalid (reason : String)
deriving DecidableEq, Repr

/-- Python `str.startswith`: the argument is a character-sequence
prefix of the receiver (phrased over `String.data` so that the kernel
can evaluate it on literals). -/
def startswith (s p : String) : Bool := p.data.isPrefixOf s.data

/-- `validate_ocr_request` (lines 113-136). -/
def validate_ocr_request (data : Option OcrData) : ValidationResult :=
  match data with
  | none => .invalid "No JSON data provided"
  | some d =>
    match d.image with
    | .absent => .invalid "Missing \x27image\x27 field"
    | .str image =>
      if startswith image "http://" || startswith image "https://" then
        if 2048 < image.length then .invalid "Image URL too long"
        else .ok
      else
        if 15 * 1024 * 1024 < image.length then .invalid "Image data too large"
        else .ok
    | .nonstring => .invalid "Invalid image format"

/-- `validate_batch_request` (lines 138-157). -/
def validate_batch_request (data : Option BatchData) : ValidationResult :=
  match data with
  | none => .invalid "No JSON data provided"
  | some d =>
    match d.images with
    | .absent => .invalid "Missing \x27images\x27 field"
    | .nonlist => .invalid "\x27images\x27 must be an array"
    | .list images =>
      if images.length = 0 then .invalid "Empty images array"
      else if 10 < images.length then .invalid "Maximum 10 images per batch"
      else .ok

/-- The `images` list of a batch body (meaningful once
`validate_batch_request` returned `ok`). -/
def batchImages (data : Option BatchData) : List String :=
  match data with
  | none => []
  | some d =>
    match d.images with
    | .list items => items
    | _ => []

/-- The `usage` block attached to responses; fields not present in a
given response shape are `none`. -/
structure UsageInfo where
  user : Option String
  tier : Option String
  requests_used : ℕ
  daily_limit : ℕ
  requests_remaining : Option ℤ
deriving DecidableEq, Repr

/-- An HTTP response of the gateway: status code plus the JSON envelope
fields the claims inspect. -/
structure Response where
  status : ℕ
  success : Bool
  error : Option String
  text : Option String
  usage : Option UsageInfo
deriving DecidableEq, Repr

/-- The 401 early return of `require_api_key`. -/
def missingKeyResponse : Response :=
  { status := 401, success := false
    error := some "Missing API key. Include X-API-Key header."
    text := none, usage := none }

/-- The 403 early return of `require_api_key`. -/
def invalidKeyResponse : Response :=
  { status := 403, success := false, error := some "Invalid API key"
    text := none, usage := none }

/-- Outcome of the one forwarded HTTP call to the internal OCR server:
`requests.Timeout`, any other exception, or a reply with a status code
and parsed JSON body (summarised by its `success` flag and text). -/
inductive UpstreamOutcome where
  | timeout
  | failure
  | reply (status : ℕ) (success : Bool) (text : String)
deriving DecidableEq, Repr

/-- `proxy_ocr` (lines 178-262), composed with its `require_api_key`
decorator.  Order of operations, as in the source: auth, then
`check_rate_limit` (which records the request when admitted), then body
validation, then the forward to the upstream server. -/
def proxy_ocr (keys : Registry) (header : Option String) (data : Option OcrData)
    (upstream : UpstreamOutcome) (now : ℤ) (storage : Storage) : Response × Storage :=
  match require_api_key keys header with
  | .missing => (missingKeyResponse, storage)
  | .invalid => (invalidKeyResponse, storage)
  | .ok api_key api_user =>
    let r := check_rate_limit keys api_key now storage
    if r.1.allowed = false then
      ({ status := 429, success := false, error := some "Rate limit exceeded"
         text := none
         usage := some { user := none, tier := none, requests_used := r.1.used
                         daily_limit := r.1.limit, requests_remaining := none } }, r.2)
    else
      match validate_ocr_request data with
      | .invalid e =>
        ({ status := 400, success := false, error := some e, text := none, usage := none }, r.2)
      | .ok =>
        match upstream with
        | .timeout =>
          ({ status := 504, success := false, error := some "OCR request timed out"
             text := none, usage := none }, r.2)
        | .failure =>
          ({ status := 500, success := false, error := some "Internal server error"
             text := none, usage := none }, r.2)
        | .reply st succ text =>
          ({ status := st, success := succ, error := none, text := some text
             usage := if succ then
                 some { user := none, tier := some api_user.tier, requests_used := r.1.used
                        daily_limit := r.1.limit, requests_remaining := none }
               else none }, r.2)

/-- `proxy_batch_ocr` (lines 264-351), composed with its decorator.
Order of operations, as in the source: auth, then batch validation,
then a call to `check_rate_limit` (whose `allowed` component the source
ignores, and which already records one timestamp when it admits), then
the batch-size quota test `used + num_images > limit`, then a loop
appending `num_images` timestamps, then the forward. -/
def proxy_batch_ocr (keys : Registry) (header : Option String) (data : Option BatchData)
    (upstream : UpstreamOutcome) (now loop_now : ℤ) (storage : Storage) : Response × Storage :=
  match require_api_key keys header with
  | .missing => (missingKeyResponse, storage)
  | .invalid => (invalidKeyResponse, storage)
  | .ok api_key api_user =>
    match validate_batch_request data with
    | .invalid e =>
      ({ status := 400, success := false, error := some e, text := none, usage := none },
       storage)
    | .ok =>
      let num_images := (batchImages data).length
      let r := check_rate_limit keys api_key now storage
      if r.1.limit < r.1.used + num_images then
        ({ status := 429, success := false
           error := some ("Insufficient quota. Batch requires " ++ toString num_images ++
             " requests, but only " ++ toString ((r.1.limit : ℤ) - (r.1.used : ℤ)) ++
             " remaining.")
           text := none
           usage := some { user := none, tier := none, requests_used := r.1.used
                           daily_limit := r.1.limit, requests_remaining := none } }, r.2)
      else
        let storage2 : Storage := fun k =>
          if k = api_key then r.2 api_key ++ List.replicate num_images loop_now else r.2 k
        match upstream with
        | .timeout =>
          ({ status := 504, success := false, error := some "Batch OCR request timed out"
             text := none, usage := none }, storage2)
        | .failure =>
          ({ status := 500, success := false, error := some "Internal server error"
             text := none, usage := none }, storage2)
        | .reply st succ text =>
          ({ status := st, success := succ, error := none, text := some text
             usage := if succ then
                 some { user := none, tier := some api_user.tier
                        requests_used := r.1.used + num_images
                        daily_limit := r.1.limit, requests_remaining := none }
               else none }, storage2)

/-- `get_usage` (lines 353-374), composed with its decorator.  Counts
the unexpired timestamps with the same `now - t < 86400` predicate as
the rate limiter, into a local, without writing `rate_limit_storage`. -/
def get_usage (keys : Registry) (header : Option String) (now : ℤ) (storage : Storage) :
    Response × Storage :=
  match require_api_key keys header with
  | .missing => (missingKeyResponse, storage)
  | .invalid => (invalidKeyResponse, storage)
  | .ok api_key user_info =>
    let used := ((storage api_key).filter (fun req_time => now - req_time < 86400)).length
    ({ status := 200, success := true, error := none, text := none
       usage := some { user := some user_info.user, tier := some user_info.tier
                       requests_used := used, daily_limit := user_info.daily_limit
                       requests_remaining := some ((user_info.daily_limit : ℤ) - (used : ℤ)) } },
     storage)

/-- A sequence of calls to `check_rate_limit` for one key at the given
instants, threading the storage; returns the decisions in order. -/
def runCalls (keys : Registry) (api_key : String) :
    Storage → List ℤ → List RateDecision × Storage
  | storage, [] => ([], storage)
  | storage, now :: rest =>
    let r := check_rate_limit keys api_key now storage
    let rec_rest := runCalls keys api_key r.2 rest
    (r.1 :: rec_rest.1, rec_rest.2)

/-- A one-key registry used by concrete witnesses: `daily_limit = 2`. -/
def regTwo : Registry := fun k => if k = "k2" then some ⟨"u2", "free", 2⟩ else none

/-- A one-key registry used by concrete witnesses: `daily_limit = 1`. -/
def regOne : Registry := fun k => if k = "k1" then some ⟨"u1", "free", 1⟩ else none

/-- A one-key registry used by concrete witnesses: `daily_limit = 5`. -/
def regFive : Registry := fun k => if k = "k5" then some ⟨"u5", "pro", 5⟩ else none

/-- The everywhere-empty `rate_limit_storage`. -/
def emptyStorage : Storage := fun _ => []

/-- Successful authentication unpacks to: the header is present, its
value is nonempty and the registry maps it to the record. -/
theorem require_api_key_ok_iff (keys : Registry) (header : Option String)
    (api_key : String) (record : ApiKeyRecord) :
    require_api_key keys header = .ok api_key record ↔
      header = some api_key ∧ api_key ≠ "" ∧ keys api_key = some record := by
  cases header with
  | none => simp [require_api_key]
  | some k =>
    by_cases hk : k = ""
    · subst hk
      simp only [require_api_key, if_pos rfl]
      constructor
      · intro h; cases h
      · rintro ⟨h1, h2, -⟩
        cases h1
        exact absurd rfl h2
    · cases hkk : keys k with
      | none =>
        simp only [require_api_key, if_neg hk, hkk]
        constructor
        · intro h; cases h
        · rintro ⟨h1, -, h3⟩
          cases h1
          rw [hkk] at h3
          cases h3
      | some r =>
        simp only [require_api_key, if_neg hk, hkk]
        constructor
        · intro h
          cases h
          exact ⟨rfl, hk, hkk⟩
        · rintro ⟨h1, -, h3⟩
          cases h1
          rw [hkk] at h3
          cases h3
          rfl

/-- Pruning is the identity when every recorded timestamp is still
inside the window. -/
theorem pruneWindow_eq_self (now window : ℤ) (ts : List ℤ)
    (h : ∀ t ∈ ts, now - t < window) : pruneWindow now window ts = ts :=
  List.filter_eq_self.mpr (fun t ht => decide_eq_true (h t ht))

/-- `check_rate_limit` in the admitted case: the pruned list is below
the key's limit, so the call appends `now` and reports the new count. -/
theorem check_rate_limit_admit (keys : Registry) (api_key : String) (record : ApiKeyRecord)
    (hk : keys api_key = some record) (now : ℤ) (storage : Storage)
    (hlt : (pruneWindow now 86400 (storage api_key)).length < record.daily_limit) :
    check_rate_limit keys api_key now storage
      = (⟨true, (pruneWindow now 86400 (storage api_key)).length + 1, record.daily_limit⟩,
         fun k => if k = api_key then pruneWindow now 86400 (storage api_key) ++ [now]
                  else storage k) := by
  simp [check_rate_limit, hk, Nat.not_le.mpr hlt]

/-- `check_rate_limit` in the denied case: the pruned list already
reaches the key's limit, so nothing is appended. -/
theorem check_rate_limit_deny (keys : Registry) (api_key : String) (record : ApiKeyRecord)
    (hk : keys api_key = some record) (now : ℤ) (storage : Storage)
    (hge : record.daily_limit ≤ (pruneWindow now 86400 (storage api_key)).length) :
    check_rate_limit keys api_key now storage
      = (⟨false, (pruneWindow now 86400 (storage api_key)).length, record.daily_limit⟩,
         fun k => if k = api_key then pruneWindow now 86400 (storage api_key)
                  else storage k) := by
  simp [check_rate_limit, hk, hge]

/-- Splitting a call sequence: the decisions of `ts1 ++ ts2` are the
decisions of `ts1` followed by the decisions of `ts2` run from the
storage `ts1` leaves behind. -/
theorem runCalls_append (keys : Registry) (api_key : String) (storage : Storage)
    (ts1 ts2 : List ℤ) :
    runCalls keys api_key storage (ts1 ++ ts2)
      = ((runCalls keys api_key storage ts1).1
           ++ (runCalls keys api_key (runCalls keys api_key storage ts1).2 ts2).1,
         (runCalls keys api_key (runCalls keys api_key storage ts1).2 ts2).2) := by
  induction ts1 generalizing storage with
  | nil => simp [runCalls]
  | cons t ts ih => simp [runCalls, ih]

/-- While the recorded timestamps plus the remaining calls fit under the
key's limit and all instants stay within one window span, every call is
admitted and each one appends its instant. -/
theorem runCalls_all_admitted (keys : Registry) (api_key : String) (record : ApiKeyRecord)
    (hk : keys api_key = some record) :
    ∀ (ts l : List ℤ) (storage : Storage), storage api_key = l →
    (∀ s ∈ ts, ∀ t ∈ l, s - t < 86400) →
    (∀ s ∈ ts, ∀ t ∈ ts, s - t < 86400) →
    l.length + ts.length ≤ record.daily_limit →
    (runCalls keys api_key storage ts).1.map RateDecision.allowed
        = List.replicate ts.length true
    ∧ (runCalls keys api_key storage ts).2 api_key = l ++ ts := by
  intro ts
  induction ts with
  | nil =>
    intro l storage hs _ _ _
    simpa [runCalls] using hs
  | cons now rest ih =>
    intro l storage hs hold hnew hlen
    have hprune : pruneWindow now 86400 (storage api_key) = l := by
      rw [hs]
      exact pruneWindow_eq_self now 86400 l
        (fun t ht => hold now (List.mem_cons_self now rest) t ht)
    have hlt : (pruneWindow now 86400 (storage api_key)).length < record.daily_limit := by
      rw [hprune]
      have := List.length_cons now rest
      omega
    have hstep := check_rate_limit_admit keys api_key record hk now storage hlt
    have hrec := ih (l ++ [now])
      (fun k => if k = api_key then pruneWindow now 86400 (storage api_key) ++ [now]
                else storage k)
      (by simp [hprune])
      (by
        intro s hsr t ht
        rcases List.mem_append.mp ht with htl | htn
        · exact hold s (List.mem_cons_of_mem now hsr) t htl
        · rw [List.mem_singleton.mp htn]
          exact hnew s (List.mem_cons_of_mem now hsr) now (List.mem_cons_self now rest))
      (by
        intro s hsr t htr
        exact hnew s (List.mem_cons_of_mem now hsr) t (List.mem_cons_of_mem now htr))
      (by
        have := List.length_append l [now]
        simp only [List.length_cons] at hlen
        simp only [List.length_append, List.length_singleton]
        omega)
    refine ⟨?_, ?_⟩
    · simp only [runCalls, hstep, List.map_cons, List.length_cons, List.replicate_succ]
      exact congrArg (List.cons true) hrec.1
    · simp only [runCalls, hstep]
      rw [hrec.2, List.append_assoc, List.singleton_append]

/-- C1: for every API key whose record has `dailyLimit = N`, starting
from an empty usage window, the first `N` calls to `check_rate_limit`
within a 24-hour window are admitted and the `(N+1)`th call is denied,
with the denial reporting `used = N` and `limit = N`. -/
theorem firstN_admitted_then_denied (keys : Registry) (api_key : String)
    (record : ApiKeyRecord) (hk : keys api_key = some record)
    (storage : Storage) (h0 : storage api_key = [])
    (ts : List ℤ) (tN : ℤ) (hlen : ts.length = record.daily_limit)
    (hspan : ∀ s ∈ ts ++ [tN], ∀ t ∈ ts ++ [tN], s - t < 86400) :
    (runCalls keys api_key storage (ts ++ [tN])).1.map RateDecision.allowed
        = List.replicate record.daily_limit true ++ [false]
    ∧ (runCalls keys api_key storage (ts ++ [tN])).1.getLast?
        = some ⟨false, record.daily_limit, record.daily_limit⟩ := by
  have hsub : ∀ s ∈ ts, ∀ t ∈ ts, s - t < 86400 := fun s hs t ht =>
    hspan s (List.mem_append_left _ hs) t (List.mem_append_left _ ht)
  have hall := runCalls_all_admitted keys api_key record hk ts [] storage h0
    (by intro s hs t ht; cases ht) hsub (by simp [hlen])
  have hfinal : (runCalls keys api_key storage ts).2 api_key = ts := by
    simpa using hall.2
  have hpr : pruneWindow tN 86400 ((runCalls keys api_key storage ts).2 api_key) = ts := by
    rw [hfinal]
    exact pruneWindow_eq_self _ _ _ (fun t ht =>
      hspan tN (List.mem_append_right _ (List.mem_singleton_self tN)) t
        (List.mem_append_left _ ht))
  have hdeny := check_rate_limit_deny keys api_key record hk tN
    (runCalls keys api_key storage ts).2 (by rw [hpr, hlen])
  have hlast : (runCalls keys api_key (runCalls keys api_key storage ts).2 [tN]).1
      = [⟨false, record.daily_limit, record.daily_limit⟩] := by
    simp only [runCalls, hdeny]
    rw [hpr, hlen]
  rw [runCalls_append]
  constructor
  · rw [List.map_append, hall.1, hlen, hlast]
    rfl
  · rw [hlast]
    exact List.getLast?_concat _

/-- Closed instance of the C1 theorem: key with limit 2, calls at
instants 0, 1, 2. -/
theorem firstN_admitted_then_denied_witness :
    (runCalls regTwo "k2" emptyStorage ([0, 1] ++ [2])).1.map RateDecision.allowed
        = List.replicate 2 true ++ [false]
    ∧ (runCalls regTwo "k2" emptyStorage ([0, 1] ++ [2])).1.getLast?
        = some ⟨false, 2, 2⟩ :=
  firstN_admitted_then_denied regTwo "k2" ⟨"u2", "free", 2⟩ rfl emptyStorage rfl
    [0, 1] 2 rfl (by decide)

/-- C4: the pruning step keeps a recorded timestamp `t` exactly when
`now - t < 86400`; a timestamp at least 24 hours older than `now` is
evicted, and a timestamp greater than `now` (negative delta) is
retained as not expired. -/
theorem pruneWindow_membership (now req_time : ℤ) (ts : List ℤ) :
    (req_time ∈ pruneWindow now 86400 ts ↔ req_time ∈ ts ∧ now - req_time < 86400)
    ∧ (86400 ≤ now - req_time → req_time ∉ pruneWindow now 86400 ts)
    ∧ (req_time ∈ ts → now < req_time → req_time ∈ pruneWindow now 86400 ts) := by
  have hmem : req_time ∈ pruneWindow now 86400 ts ↔
      req_time ∈ ts ∧ now - req_time < 86400 := by
    simp [pruneWindow, List.mem_filter]
  refine ⟨hmem, ?_, ?_⟩
  · intro hge hmem2
    have := (hmem.mp hmem2).2
    omega
  · intro hin hlt
    exact hmem.mpr ⟨hin, by omega⟩

/-- Closed instance of the C4 theorem at `now = 100000`, `t = 0`. -/
theorem pruneWindow_membership_witness :
    ((0 : ℤ) ∈ pruneWindow 100000 86400 [0] ↔
      (0 : ℤ) ∈ ([0] : List ℤ) ∧ (100000 : ℤ) - 0 < 86400)
    ∧ ((86400 : ℤ) ≤ 100000 - 0 → (0 : ℤ) ∉ pruneWindow 100000 86400 [0])
    ∧ ((0 : ℤ) ∈ ([0] : List ℤ) → (100000 : ℤ) < 0 →
        (0 : ℤ) ∈ pruneWindow 100000 86400 [0]) :=
  pruneWindow_membership 100000 0 [0]

/-- C5: an authenticated batch request whose images list has more than
10 entries is answered 400 with error "Maximum 10 images per batch" and
the whole rate-limit storage is returned unchanged: batch validation
runs strictly before any quota accounting. -/
theorem batch_too_many_images (keys : Registry) (header : Option String)
    (api_key : String) (record : ApiKeyRecord)
    (hauth : require_api_key keys header = .ok api_key record)
    (items : List String) (h10 : 10 < items.length)
    (upstream : UpstreamOutcome) (now loop_now : ℤ) (storage : Storage) :
    proxy_batch_ocr keys header (some ⟨ImagesField.list items⟩) upstream now loop_now storage
      = ({ status := 400, success := false, error := some "Maximum 10 images per batch"
           text := none, usage := none }, storage) := by
  have h0 : ¬ items.length = 0 := by omega
  simp [proxy_batch_ocr, hauth, validate_batch_request, h0, h10]

/-- Closed instance of the C5 theorem: an 11-image batch. -/
theorem batch_too_many_images_witness :
    proxy_batch_ocr regTwo (some "k2")
        (some ⟨ImagesField.list ["a", "b", "c", "d", "e", "f", "g", "h", "i", "j", "l"]⟩)
        .timeout 0 0 emptyStorage
      = ({ status := 400, success := false, error := some "Maximum 10 images per batch"
           text := none, usage := none }, emptyStorage) :=
  batch_too_many_images regTwo (some "k2") "k2" ⟨"u2", "free", 2⟩ rfl
    ["a", "b", "c", "d", "e", "f", "g", "h", "i", "j", "l"] (by decide)
    .timeout 0 0 emptyStorage

/-- C6: an authenticated, admitted single OCR request whose upstream
forward times out is answered 504 with error "OCR request timed out",
and the timestamp recorded at admission remains in the key's window
(the quota unit is not rolled back). -/
theorem single_timeout_quota_not_refunded (keys : Registry) (header : Option String)
    (api_key : String) (record : ApiKeyRecord)
    (hauth : require_api_key keys header = .ok api_key record)
    (data : Option OcrData) (hvalid : validate_ocr_request data = .ok)
    (now : ℤ) (storage : Storage)
    (hq : (pruneWindow now 86400 (storage api_key)).length < record.daily_limit) :
    (proxy_ocr keys header data .timeout now storage).1
      = { status := 504, success := false, error := some "OCR request timed out"
          text := none, usage := none }
    ∧ (proxy_ocr keys header data .timeout now storage).2 api_key
      = pruneWindow now 86400 (storage api_key) ++ [now] := by
  obtain ⟨-, -, hk⟩ := (require_api_key_ok_iff keys header api_key record).mp hauth
  have hadmit := check_rate_limit_admit keys api_key record hk now storage hq
  constructor <;> simp [proxy_ocr, hauth, hadmit, hvalid]

/-- Closed instance of the C6 theorem: key with limit 2, empty window,
valid URL body, upstream timeout. -/
theorem single_timeout_quota_not_refunded_witness :
    (proxy_ocr regTwo (some "k2") (some ⟨ImageField.str "http://a"⟩) .timeout 0
        emptyStorage).1
      = { status := 504, success := false, error := some "OCR request timed out"
          text := none, usage := none }
    ∧ (proxy_ocr regTwo (some "k2") (some ⟨ImageField.str "http://a"⟩) .timeout 0
        emptyStorage).2 "k2"
      = pruneWindow 0 86400 (emptyStorage "k2") ++ [0] :=
  single_timeout_quota_not_refunded regTwo (some "k2") "k2" ⟨"u2", "free", 2⟩ rfl
    (some ⟨ImageField.str "http://a"⟩) (by decide) 0 emptyStorage (by decide)

/-- C7: for every authenticated key the usage report counts `used` with
the rate limiter's pruning predicate (`now - t < 86400`) without
mutating the window, and reports
`requests_remaining = daily_limit - used`. -/
theorem usage_report_read_only (keys : Registry) (header : Option String)
    (api_key : String) (record : ApiKeyRecord)
    (hauth : require_api_key keys header = .ok api_key record)
    (now : ℤ) (storage : Storage) :
    get_usage keys header now storage
      = ({ status := 200, success := true, error := none, text := none
           usage := some { user := some record.user, tier := some record.tier
                           requests_used := (pruneWindow now 86400 (storage api_key)).length
                           daily_limit := record.daily_limit
                           requests_remaining := some ((record.daily_limit : ℤ)
                             - ((pruneWindow now 86400 (storage api_key)).length : ℤ)) } },
         storage) := by
  simp [get_usage, hauth, pruneWindow]

/-- Closed instance of the C7 theorem: window holding two live and one
expired timestamp. -/
theorem usage_report_read_only_witness :
    get_usage regTwo (some "k2") 5 (fun _ => [0, -90000, 4])
      = ({ status := 200, success := true, error := none, text := none
           usage := some { user := some "u2", tier := some "free"
                           requests_used := (pruneWindow 5 86400 ((fun _ => [0, -90000, 4]) "k2")).length
                           daily_limit := 2
                           requests_remaining := some ((2 : ℤ)
                             - ((pruneWindow 5 86400 ((fun _ => [0, -90000, 4]) "k2")).length : ℤ)) } },
         fun _ => [0, -90000, 4]) :=
  usage_report_read_only regTwo (some "k2") "k2" ⟨"u2", "free", 2⟩ rfl 5
    (fun _ => [0, -90000, 4])

/-- C8: single-request validation returns `ok` exactly when the body has
a string `image` field that is either an `http(s)://`-prefixed string of
length at most 2048 or a non-prefixed string of length at most
15*1024*1024; otherwise it returns `invalid` with a reason. -/
theorem validate_single_ok_iff (data : Option OcrData) :
    (validate_ocr_request data = .ok ↔
      ∃ s : String, data = some ⟨ImageField.str s⟩ ∧
        (((startswith s "http://" || startswith s "https://") = true ∧ s.length ≤ 2048)
         ∨ ((startswith s "http://" || startswith s "https://") = false
             ∧ s.length ≤ 15 * 1024 * 1024)))
    ∧ (validate_ocr_request data ≠ .ok →
        ∃ reason, validate_ocr_request data = .invalid reason) := by
  constructor
  · cases data with
    | none =>
      simp only [validate_ocr_request]
      constructor
      · intro h; cases h
      · rintro ⟨s, hs, -⟩; cases hs
    | some d =>
      obtain ⟨img⟩ := d
      cases img with
      | absent =>
        simp only [validate_ocr_request]
        constructor
        · intro h; cases h
        · rintro ⟨s, hs, -⟩
          rw [Option.some.injEq, OcrData.mk.injEq] at hs
          cases hs
      | nonstring =>
        simp only [validate_ocr_request]
        constructor
        · intro h; cases h
        · rintro ⟨s, hs, -⟩
          rw [Option.some.injEq, OcrData.mk.injEq] at hs
          cases hs
      | str s =>
        constructor
        · intro h
          refine ⟨s, rfl, ?_⟩
          simp only [validate_ocr_request] at h
          by_cases hpre : (startswith s "http://" || startswith s "https://") = true
          · rw [if_pos hpre] at h
            by_cases hlen : 2048 < s.length
            · rw [if_pos hlen] at h; cases h
            · exact Or.inl ⟨hpre, by omega⟩
          · rw [if_neg hpre] at h
            by_cases hlen : 15 * 1024 * 1024 < s.length
            · rw [if_pos hlen] at h; cases h
            · exact Or.inr ⟨by simpa using hpre, by omega⟩
        · rintro ⟨s2, hs2, hP⟩
          rw [Option.some.injEq, OcrData.mk.injEq, ImageField.str.injEq] at hs2
          cases hs2
          simp only [validate_ocr_request]
          rcases hP with ⟨hpre, hlen⟩ | ⟨hpre, hlen⟩
          · rw [if_pos hpre, if_neg (by omega)]
          · rw [if_neg (by simp [hpre]), if_neg (by omega)]
  · intro hne
    cases hv : validate_ocr_request data with
    | ok => exact absurd hv hne
    | invalid r => exact ⟨r, rfl⟩

/-- Closed instance of the C8 theorem at a short URL body. -/
theorem validate_single_ok_iff_witness :
    (validate_ocr_request (some ⟨ImageField.str "http://a"⟩) = .ok ↔
      ∃ s : String,
        (some ⟨ImageField.str "http://a"⟩ : Option OcrData) = some ⟨ImageField.str s⟩ ∧
        (((startswith s "http://" || startswith s "https://") = true ∧ s.length ≤ 2048)
         ∨ ((startswith s "http://" || startswith s "https://") = false
             ∧ s.length ≤ 15 * 1024 * 1024)))
    ∧ (validate_ocr_request (some ⟨ImageField.str "http://a"⟩) ≠ .ok →
        ∃ reason, validate_ocr_request (some ⟨ImageField.str "http://a"⟩)
          = .invalid reason) :=
  validate_single_ok_iff (some ⟨ImageField.str "http://a"⟩)

/-- C9 counterexample: the claim says a header naming a key not in the
registry is answered 403, but the header value "" (present, empty,
absent from the registry) is answered with the 401 missing-key response
on every endpoint, because `if not api_key` also treats an empty string
as missing. -/
theorem unknown_empty_key_gets_401_not_403 :
    API_KEYS "" = none
    ∧ (proxy_ocr API_KEYS (some "") (some ⟨ImageField.str "http://a"⟩) .timeout 0
        emptyStorage).1 = missingKeyResponse
    ∧ (get_usage API_KEYS (some "") 0 emptyStorage).1 = missingKeyResponse
    ∧ missingKeyResponse.status = 401
    ∧ missingKeyResponse.status ≠ 403
    ∧ missingKeyResponse.error = some "Missing API key. Include X-API-Key header." := by
  refine ⟨rfl, rfl, rfl, rfl, by decide, rfl⟩

/-- C9 (amended): a request with no X-API-Key header is answered 401
with "Missing API key. Include X-API-Key header."; a request whose
header names a nonempty key absent from the registry is answered 403
with "Invalid API key"; in both cases, on all three authenticated
endpoints, the wrapped handler never runs and the rate-limit storage is
returned unchanged. -/
theorem auth_failures_short_circuit (keys : Registry) (bad_key : String)
    (hne : bad_key ≠ "") (hnone : keys bad_key = none)
    (data : Option OcrData) (bdata : Option BatchData) (upstream : UpstreamOutcome)
    (now loop_now : ℤ) (storage : Storage) :
    (proxy_ocr keys none data upstream now storage = (missingKeyResponse, storage)
     ∧ proxy_batch_ocr keys none bdata upstream now loop_now storage
         = (missingKeyResponse, storage)
     ∧ get_usage keys none now storage = (missingKeyResponse, storage))
    ∧ (proxy_ocr keys (some bad_key) data upstream now storage
         = (invalidKeyResponse, storage)
     ∧ proxy_batch_ocr keys (some bad_key) bdata upstream now loop_now storage
         = (invalidKeyResponse, storage)
     ∧ get_usage keys (some bad_key) now storage = (invalidKeyResponse, storage)) := by
  have hinv : require_api_key keys (some bad_key) = .invalid := by
    simp [require_api_key, hne, hnone]
  have hmiss : require_api_key keys none = .missing := rfl
  exact ⟨⟨by simp [proxy_ocr, hmiss], by simp [proxy_batch_ocr, hmiss],
          by simp [get_usage, hmiss]⟩,
         by simp [proxy_ocr, hinv], by simp [proxy_batch_ocr, hinv],
         by simp [get_usage, hinv]⟩

/-- Closed instance of the amended C9 theorem at the concrete registry
and the unknown key "nope". -/
theorem auth_failures_short_circuit_witness :
    (proxy_ocr API_KEYS none none .timeout 0 emptyStorage
         = (missingKeyResponse, emptyStorage)
     ∧ proxy_batch_ocr API_KEYS none none .timeout 0 0 emptyStorage
         = (missingKeyResponse, emptyStorage)
     ∧ get_usage API_KEYS none 0 emptyStorage = (missingKeyResponse, emptyStorage))
    ∧ (proxy_ocr API_KEYS (some "nope") none .timeout 0 emptyStorage
         = (invalidKeyResponse, emptyStorage)
     ∧ proxy_batch_ocr API_KEYS (some "nope") none .timeout 0 0 emptyStorage
         = (invalidKeyResponse, emptyStorage)
     ∧ get_usage API_KEYS (some "nope") 0 emptyStorage
         = (invalidKeyResponse, emptyStorage)) :=
  auth_failures_short_circuit API_KEYS "nope" (by decide) rfl none none .timeout 0 0
    emptyStorage

/-- C10: on the single endpoint the rate-limit check runs before body
validation, so an authenticated request with remaining quota and an
invalid body is answered 400 while the usage count still grows by one. -/
theorem invalid_body_consumes_quota (keys : Registry) (header : Option String)
    (api_key : String) (record : ApiKeyRecord)
    (hauth : require_api_key keys header = .ok api_key record)
    (data : Option OcrData) (reason : String)
    (hinvalid : validate_ocr_request data = .invalid reason)
    (upstream : UpstreamOutcome) (now : ℤ) (storage : Storage)
    (hq : (pruneWindow now 86400 (storage api_key)).length < record.daily_limit) :
    (proxy_ocr keys header data upstream now storage).1
      = { status := 400, success := false, error := some reason
          text := none, usage := none }
    ∧ ((proxy_ocr keys header data upstream now storage).2 api_key).length
      = (pruneWindow now 86400 (storage api_key)).length + 1 := by
  obtain ⟨-, -, hk⟩ := (require_api_key_ok_iff keys header api_key record).mp hauth
  have hadmit := check_rate_limit_admit keys api_key record hk now storage hq
  constructor <;> simp [proxy_ocr, hauth, hadmit, hinvalid]

/-- Closed instance of the C10 theorem: a non-string image body. -/
theorem invalid_body_consumes_quota_witness :
    (proxy_ocr regTwo (some "k2") (some ⟨ImageField.nonstring⟩) .timeout 0
        emptyStorage).1
      = { status := 400, success := false, error := some "Invalid image format"
          text := none, usage := none }
    ∧ ((proxy_ocr regTwo (some "k2") (some ⟨ImageField.nonstring⟩) .timeout 0
        emptyStorage).2 "k2").length
      = (pruneWindow 0 86400 (emptyStorage "k2")).length + 1 :=
  invalid_body_consumes_quota regTwo (some "k2") "k2" ⟨"u2", "free", 2⟩ rfl
    (some ⟨ImageField.nonstring⟩) "Invalid image format" rfl .timeout 0 emptyStorage
    (by decide)

/-- C2: the code's batch path first calls `check_rate_limit` (appending
one timestamp when it admits, and returning the post-append count), so
a batch of `k` images is admitted only when `used + k < limit` and then
records `k + 1` timestamps.  At limit 2, empty window, `k = 2` the
claimed condition `used + k <= limit` holds, yet the request is denied
with 429 and one quota unit is still consumed; at limit 5, `k = 2`, an
admitted batch records 3 timestamps instead of 2. -/
theorem batch_precheck_consumes_extra_unit :
    ((proxy_batch_ocr regTwo (some "k2") (some ⟨ImagesField.list ["a", "b"]⟩)
        (.reply 200 true "t") 0 0 emptyStorage).1.status = 429
     ∧ (proxy_batch_ocr regTwo (some "k2") (some ⟨ImagesField.list ["a", "b"]⟩)
        (.reply 200 true "t") 0 0 emptyStorage).2 "k2" = [0])
    ∧ ((proxy_batch_ocr regFive (some "k5") (some ⟨ImagesField.list ["a", "b"]⟩)
        (.reply 200 true "t") 0 1 emptyStorage).1.status = 200
     ∧ (proxy_batch_ocr regFive (some "k5") (some ⟨ImagesField.list ["a", "b"]⟩)
        (.reply 200 true "t") 0 1 emptyStorage).2 "k5" = [0, 1, 1]) := by
  refine ⟨⟨?_, ?_⟩, ?_, ?_⟩ <;> decide

/-- C3: a batch request denied at the quota stage still mutates the
rate-limit state beyond pruning.  At limit 1, empty window, a 1-image
batch is denied with 429, yet the key's recorded sequence afterwards is
[5] (the timestamp appended by the preliminary `check_rate_limit`
call), not the pruned sequence []. -/
theorem denied_batch_mutates_state :
    (proxy_batch_ocr regOne (some "k1") (some ⟨ImagesField.list ["a"]⟩)
        (.reply 200 true "t") 5 7 emptyStorage).1.status = 429
    ∧ (proxy_batch_ocr regOne (some "k1") (some ⟨ImagesField.list ["a"]⟩)
        (.reply 200 true "t") 5 7 emptyStorage).2 "k1" = [5]
    ∧ pruneWindow 5 86400 (emptyStorage "k1") = [] := by
  refine ⟨?_, ?_, ?_⟩ <;> decide

end SecureOcrGateway
